import Mathlib

/-!
Verification of the Octave bridge of BasisREMY: a shallow embedding of
`docker_setup/docker_octave.py` (class `DockerOctave`) and
`core/octave_manager.py` (class `OctaveManager`), together with theorems
settling the specification claims about argument marshaling, script
assembly, command-buffer invariants, availability probing and the
backend-selection fallback policy.

Python-level effects are made explicit: the mutable object state becomes a
state record threaded through each method, and the outcomes of the external
world (Docker probe, local Octave probe, backend construction, container
exec exit code, result-file load) are fixed by an environment record, so
that every method is a total function of state, environment and arguments.
-/

namespace BasisREMY

/-! ### DockerOctave (docker_setup/docker_octave.py) -/

/-- An element of a Python list argument, as `DockerOctave.feval`
distinguishes them: a `str`, or any non-string value carried together with
its Python `str()` rendering. -/
inductive PyElem where
  | pstr (s : String)
  | pnum (render : String)
deriving DecidableEq

/-- Python `str()` applied to a list element (`str` of a string is the
string itself). -/
def PyElem.pyStr : PyElem → String
  | PyElem.pstr s => s
  | PyElem.pnum r => r

/-- A `feval` argument, following the `isinstance` chain in
`DockerOctave.feval`: `str`, `bool`, `int`/`float` (carried with its
`str()` rendering), `list`, `np.ndarray` (carried as the `str()` renderings
of its `np.ravel` flattening), `None`, or anything else (carried with the
display of its Python type, as interpolated into the `TypeError`). -/
inductive OctArg where
  | str (s : String)
  | bool (b : Bool)
  | num (render : String)
  | list (xs : List PyElem)
  | ndarray (flat : List String)
  | pyNone
  | unsupported (typeName : String)
deriving DecidableEq

/-- Path normalization applied to string arguments in `feval`: backslashes
become slashes, then one leading "./" is removed. -/
def normalizeStr (s : String) : String :=
  let r := s.replace "\x5c" "/"
  if r.startsWith "./" then r.drop 2 else r

/-- One argument rendered to its Octave assignment statement, by the
`isinstance` chain of `DockerOctave.feval`; an unsupported argument yields
`Except.error` carrying the type name interpolated into the `TypeError`.
Python `repr`/f-string quoting is modeled as plain single-quoting, which is
what it is for the quote-free names and paths the bridge handles. -/
def marshalArg (var : String) : OctArg → Except String String
  | OctArg.str s => Except.ok (var ++ " = \x27" ++ normalizeStr s ++ "\x27;")
  | OctArg.bool b => Except.ok (var ++ " = " ++ (if b then "1" else "0") ++ ";")
  | OctArg.num r => Except.ok (var ++ " = " ++ r ++ ";")
  | OctArg.list (PyElem.pstr s :: rest) =>
      Except.ok (var ++ " = \x7b" ++
        String.intercalate ", "
          ((PyElem.pstr s :: rest).map (fun e => "\x27" ++ e.pyStr ++ "\x27")) ++
        "\x7d;")
  | OctArg.list xs =>
      Except.ok (var ++ " = [" ++ String.intercalate ", " (xs.map PyElem.pyStr) ++ "];")
  | OctArg.ndarray flat =>
      Except.ok (var ++ " = [" ++ String.intercalate ", " flat ++ "];")
  | OctArg.pyNone => Except.ok (var ++ " = [];")
  | OctArg.unsupported t => Except.error t

/-- The positional argument variable names `arg0, arg1, ...`. -/
def argVars (n : Nat) : List String :=
  (List.range n).map (fun i => "arg" ++ toString i)

/-- Result variable names from `nout`: `result0, ..., result(n-1)` when
`nout > 1`, otherwise the single variable `result`. -/
def resultVars (nout : Nat) : List String :=
  if nout > 1 then (List.range nout).map (fun i => "result" ++ toString i)
  else ["result"]

/-- Marshal the arguments in order to their assignment statements, numbering
the positional variables from `i`; the first unsupported argument aborts
with its type name, exactly as the Python loop raises at that point. -/
def marshalAssigns : Nat → List OctArg → Except String (List String)
  | _, [] => Except.ok []
  | i, a :: rest =>
    match marshalArg ("arg" ++ toString i) a with
    | Except.error t => Except.error t
    | Except.ok s =>
      match marshalAssigns (i + 1) rest with
      | Except.error t => Except.error t
      | Except.ok ss => Except.ok (s :: ss)

/-- An invocation request: target function, positional arguments, `nout`,
and the optional `store_as` name. -/
structure Request where
  func_path : String
  args : List OctArg
  nout : Nat
  store_as : Option String
deriving DecidableEq

/-- The mutable command state of a `DockerOctave` object: the transient
buffer `self.commands` and the persistent list `self.persistent_commands`. -/
structure OctaveState where
  commands : List String
  persistent_commands : List String
deriving DecidableEq

/-- Outcomes of the external world during one `feval`: the exit code of the
`octave-cli` exec in the container, and whether `scipy.io.loadmat` on the
exchange file succeeds. -/
structure ExecEnv where
  exit_code : Nat
  load_ok : Bool
deriving DecidableEq

/-- The errors `feval` can raise: the `TypeError` for an unsupported
argument type, the `RuntimeError` for a non-zero exec exit code, and the
`RuntimeError` for a result file that fails to load. -/
inductive FevalError where
  | marshalingError (typeName : String)
  | executionError (exit_code : Nat)
  | resultDecodeError
deriving DecidableEq

deriving instance DecidableEq for Except

/-- The observable outcome of one `feval` call: normal return or raised
error, the state of the command buffers afterwards, and the script text
passed to the container exec (`Option.none` when no script was executed). -/
structure FevalOutcome where
  result : Except FevalError Unit
  state : OctaveState
  executedScript : Option String
deriving DecidableEq

/-- The fixed exchange-file path relative to the workspace mount,
`os.path.relpath(self.result_path, self.project_root)`. -/
def result_file_rel : String := "docker_setup/octave_shared/result.mat"

/-- The variables the save statement writes: `store_as` when it is a
non-empty (truthy) string, otherwise the result variables. -/
def storeVars (r : Request) : List String :=
  match r.store_as with
  | some s => if s = "" then resultVars r.nout else [s]
  | _ => resultVars r.nout

/-- The call statement binding the outputs of the target function applied to
the positional argument variables. -/
def callStmt (r : Request) : String :=
  "[" ++ String.intercalate ", " (resultVars r.nout) ++ "] = " ++
    r.func_path ++ "(" ++ String.intercalate ", " (argVars r.args.length) ++ ");"

/-- The save statement writing the stored variable(s) to the fixed
exchange-file path. -/
def saveStmt (r : Request) : String :=
  "save(\x27-v7\x27, \x27" ++ result_file_rel ++ "\x27, " ++
    String.intercalate ", " ((storeVars r).map (fun v => "\x27" ++ v ++ "\x27")) ++ ");"

/-- The lines of the generated script, in the order of
`self.persistent_commands + assigns + self.commands + [call, save]`. -/
def scriptLines (st : OctaveState) (r : Request) (assigns : List String) : List String :=
  st.persistent_commands ++ assigns ++ st.commands ++ [callStmt r, saveStmt r]

namespace DockerOctave

/-- `DockerOctave.eval`: append a persistent command. -/
def eval (st : OctaveState) (cmd : String) : OctaveState :=
  { st with persistent_commands := st.persistent_commands ++ [cmd] }

/-- `DockerOctave.exit`: clear the transient buffer, keep the persistent
commands. -/
def exit (st : OctaveState) : OctaveState :=
  { st with commands := [] }

/-- `DockerOctave.feval`: marshal the arguments (raising `TypeError` on an
unsupported one before any script exists), assemble the script, execute it
in the container, raise on a non-zero exit code, load the exchange file,
raise if that fails, and only then clear the transient command buffer. -/
def feval (st : OctaveState) (env : ExecEnv) (r : Request) : FevalOutcome :=
  match marshalAssigns 0 r.args with
  | Except.error t =>
      ⟨Except.error (FevalError.marshalingError t), st, Option.none⟩
  | Except.ok assigns =>
      let code := String.intercalate "\n" (scriptLines st r assigns)
      if env.exit_code ≠ 0 then
        ⟨Except.error (FevalError.executionError env.exit_code), st, some code⟩
      else if env.load_ok then
        ⟨Except.ok (), { st with commands := [] }, some code⟩
      else
        ⟨Except.error FevalError.resultDecodeError, st, some code⟩

end DockerOctave

/-! ### OctaveManager (core/octave_manager.py) -/

/-- The two backend kinds a manager can construct. -/
inductive BackendKind where
  | docker
  | localOctave
deriving DecidableEq

/-- The mutable fields of an `OctaveManager` object. -/
structure ManagerState where
  runtime_type : Option String
  octave_instance : Option BackendKind
  docker_available : Bool
  local_octave_available : Bool
  verbose : Bool
deriving DecidableEq

/-- Outcomes of the external world for the manager: whether the Docker
probe (any of the attempted socket locations) answers the ping, whether the
local Octave probe (`shutil.which` plus a trial run) succeeds, and whether
construction of each backend succeeds. -/
structure ManagerEnv where
  docker_probe : Bool
  local_probe : Bool
  docker_ctor_ok : Bool
  local_ctor_ok : Bool
deriving DecidableEq

/-- The `RuntimeError`s `initialize_octave` can raise: a backend
constructor that threw, or the neither-available message. -/
inductive InitError where
  | ctorFailed (which : BackendKind)
  | notAvailable (message : String)
deriving DecidableEq

namespace OctaveManager

/-- `OctaveManager.__init__` with the `BASISREMY_VERBOSE` environment
variable made explicit. -/
def init (verbose env_verbose : Bool) : ManagerState :=
  ⟨Option.none, Option.none, false, false, verbose || env_verbose⟩

/-- `check_docker_availability`: every internal failure (missing package,
unreachable daemon at every socket location) is caught and collapses to
`false`; a successful probe records `docker_available := true`. -/
def check_docker_availability (st : ManagerState) (env : ManagerEnv) :
    Bool × ManagerState :=
  if env.docker_probe then (true, { st with docker_available := true })
  else (false, st)

/-- `check_local_octave_availability`: failures (no binary on the PATH,
timeout, non-zero trial run) collapse to `false`; a successful probe
records `local_octave_available := true`. -/
def check_local_octave_availability (st : ManagerState) (env : ManagerEnv) :
    Bool × ManagerState :=
  if env.local_probe then (true, { st with local_octave_available := true })
  else (false, st)

/-- `Char` of the repeated-rule lines, `"="*n` and `"-"*n`. -/
def repLine (c : Char) (n : Nat) : String := String.mk (List.replicate n c)

/-- The lines of `_get_installation_instructions` before the two option
sections. -/
def instrHeader : List String :=
  ["\n" ++ repLine (Char.ofNat 61) 80,
   "Octave Runtime Not Available",
   repLine (Char.ofNat 61) 80,
   "",
   "BasisREMY requires Octave to run simulations. You have two options:",
   ""]

/-- The Docker remediation section emitted when the Docker probe failed. -/
def dockerMissingLines : List String :=
  ["Docker is not installed or not running.",
   "",
   "To install Docker:",
   "  • macOS: Download from https://www.docker.com/products/docker-desktop",
   "  • Linux: sudo apt-get install docker.io (Ubuntu/Debian)",
   "           sudo yum install docker (RedHat/CentOS)",
   "  • Windows: Download from https://www.docker.com/products/docker-desktop",
   "",
   "After installation, make sure Docker is running and try again.",
   "You also need to install the Python docker package:",
   "  pip install docker",
   ""]

/-- The lines emitted when the Docker probe succeeded. -/
def dockerOkLines : List String :=
  ["✓ Docker is available!", ""]

/-- The local-Octave remediation section emitted when the local probe
failed. -/
def octaveMissingLines : List String :=
  ["Local Octave installation not found.",
   "",
   "To install Octave:",
   "  • macOS: brew install octave",
   "  • Linux: sudo apt-get install octave (Ubuntu/Debian)",
   "           sudo yum install octave (RedHat/CentOS)",
   "  • Windows: Download from https://www.gnu.org/software/octave/",
   "",
   "You also need to install the Python oct2py package:",
   "  pip install oct2py",
   ""]

/-- The lines emitted when the local probe succeeded. -/
def octaveOkLines : List String :=
  ["✓ Local Octave is available!", ""]

/-- The full instruction-line list of `_get_installation_instructions`,
as a function of the two live probe results. -/
def installationLines (docker_checked octave_checked : Bool) : List String :=
  instrHeader
    ++ ["OPTION 1: Use Docker (Recommended)", repLine (Char.ofNat 45) 40]
    ++ (if docker_checked then dockerOkLines else dockerMissingLines)
    ++ ["OPTION 2: Install Octave Locally", repLine (Char.ofNat 45) 40]
    ++ (if octave_checked then octaveOkLines else octaveMissingLines)
    ++ [repLine (Char.ofNat 61) 80]

/-- `_get_installation_instructions`: re-runs both probes (mutating the
availability flags) and joins the section lines. -/
def _get_installation_instructions (st : ManagerState) (env : ManagerEnv) :
    String × ManagerState :=
  let (dc, st1) := check_docker_availability st env
  let (oc, st2) := check_local_octave_availability st1 env
  (String.intercalate "\n" (installationLines dc oc), st2)

/-- `_initialize_docker`: on successful construction, set
`octave_instance` and `runtime_type := 'docker'`; a constructor that throws
is re-raised as a `RuntimeError` with the state untouched. -/
def _initialize_docker (st : ManagerState) (env : ManagerEnv) :
    Except InitError BackendKind × ManagerState :=
  if env.docker_ctor_ok then
    (Except.ok BackendKind.docker,
     { st with octave_instance := some BackendKind.docker,
               runtime_type := some "docker" })
  else (Except.error (InitError.ctorFailed BackendKind.docker), st)

/-- `_initialize_local`: on successful construction, set `octave_instance`
and `runtime_type := 'local'`; a constructor that throws is re-raised as a
`RuntimeError` with the state untouched. -/
def _initialize_local (st : ManagerState) (env : ManagerEnv) :
    Except InitError BackendKind × ManagerState :=
  if env.local_ctor_ok then
    (Except.ok BackendKind.localOctave,
     { st with octave_instance := some BackendKind.localOctave,
               runtime_type := some "local" })
  else (Except.error (InitError.ctorFailed BackendKind.localOctave), st)

/-- `initialize_octave`: optional per-call verbose override, then probe the
preferred backend and construct it if the probe succeeds; only when the
probe fails is the other backend probed; when both probes fail, raise the
installation-instructions `RuntimeError`. -/
def initialize_octave (st : ManagerState) (env : ManagerEnv)
    (prefer_docker : Bool) (verbose : Option Bool) :
    Except InitError BackendKind × ManagerState :=
  let st0 := match verbose with
    | some v => { st with verbose := v }
    | _ => st
  if prefer_docker then
    let (d, st1) := check_docker_availability st0 env
    if d then _initialize_docker st1 env
    else
      let (l, st2) := check_local_octave_availability st1 env
      if l then _initialize_local st2 env
      else
        let (msg, st3) := _get_installation_instructions st2 env
        (Except.error (InitError.notAvailable msg), st3)
  else
    let (l, st1) := check_local_octave_availability st0 env
    if l then _initialize_local st1 env
    else
      let (d, st2) := check_docker_availability st1 env
      if d then _initialize_docker st2 env
      else
        let (msg, st3) := _get_installation_instructions st2 env
        (Except.error (InitError.notAvailable msg), st3)

end OctaveManager

/-! ### Concrete fixtures -/

/-- A fresh manager, verbose off, `BASISREMY_VERBOSE` unset. -/
def mgr0 : ManagerState := OctaveManager.init false false

/-- An argument-free request. -/
def reqPlain : Request := ⟨"sim", [], 1, Option.none⟩

/-- A request with a single Absent (`None`) argument. -/
def reqNone : Request := ⟨"sim", [OctArg.pyNone], 1, Option.none⟩

/-- A request whose second argument is of an unsupported (dict) type. -/
def reqDict : Request :=
  ⟨"sim", [OctArg.num "1", OctArg.unsupported "<class \x27dict\x27>"], 1, Option.none⟩

/-- A command state with one transient and one persistent command. -/
def stCmds : OctaveState :=
  ⟨["tmp_cmd;"], ["addpath(genpath(\x27basisREMY\x27));"]⟩

/-- Exec environment: container exec fails with exit code 1. -/
def envExecFail : ExecEnv := ⟨1, true⟩

/-- Exec environment: exec and result load both succeed. -/
def envExecOk : ExecEnv := ⟨0, true⟩

/-- Exec environment: exec succeeds, loading the result file fails. -/
def envLoadFail : ExecEnv := ⟨0, false⟩

/-! ### Helper lemmas -/

/-- The state after `feval`: the transient buffer is cleared exactly on the
normal-return path; everything else leaves the state untouched. -/
theorem feval_result_state (st : OctaveState) (env : ExecEnv) (r : Request) :
    (DockerOctave.feval st env r).state =
      (if (DockerOctave.feval st env r).result = Except.ok () then
        { st with commands := [] } else st) := by
  unfold DockerOctave.feval
  cases h : marshalAssigns 0 r.args with
  | error t => simp
  | ok assigns =>
    by_cases he : env.exit_code ≠ 0
    · simp [he]
    · by_cases hl : env.load_ok
      · simp [he, hl]
      · simp [he, hl]

/-- When marshaling succeeds, `feval` always executes the assembled script,
whatever the exec and load outcomes. -/
theorem feval_script (st : OctaveState) (env : ExecEnv) (r : Request)
    (assigns : List String) (h : marshalAssigns 0 r.args = Except.ok assigns) :
    (DockerOctave.feval st env r).executedScript =
      some (String.intercalate "\n" (scriptLines st r assigns)) := by
  unfold DockerOctave.feval
  rw [h]
  by_cases he : env.exit_code ≠ 0
  · simp [he]
  · by_cases hl : env.load_ok
    · simp [he, hl]
    · simp [he, hl]

/-- When marshaling fails, `feval` raises the marshaling error with the
state untouched and no script executed. -/
theorem feval_marshal_err (st : OctaveState) (env : ExecEnv) (r : Request)
    (t : String) (h : marshalAssigns 0 r.args = Except.error t) :
    DockerOctave.feval st env r =
      ⟨Except.error (FevalError.marshalingError t), st, Option.none⟩ := by
  unfold DockerOctave.feval
  rw [h]

/-- If some argument is unsupported, marshaling aborts with the type name of
an unsupported argument of the request. -/
theorem marshalAssigns_err_of_unsupported :
    ∀ (args : List OctArg) (k : Nat) (t : String),
      OctArg.unsupported t ∈ args →
      ∃ t2, marshalAssigns k args = Except.error t2 ∧
        OctArg.unsupported t2 ∈ args := by
  intro args
  induction args with
  | nil => intro k t h; simp at h
  | cons hd tl ih =>
    intro k t h
    by_cases ha : ∃ u, hd = OctArg.unsupported u
    · obtain ⟨u, rfl⟩ := ha
      exact ⟨u, by simp [marshalAssigns, marshalArg], List.mem_cons_self _ _⟩
    · have hmem : OctArg.unsupported t ∈ tl := by
        rcases List.mem_cons.mp h with h1 | h2
        · exact absurd ⟨t, h1.symm⟩ ha
        · exact h2
      obtain ⟨t2, ht2, hm2⟩ := ih (k + 1) t hmem
      have hok : ∃ s, marshalArg ("arg" ++ toString k) hd = Except.ok s := by
        cases hd with
        | unsupported u => exact absurd ⟨u, rfl⟩ ha
        | str s => exact ⟨_, rfl⟩
        | bool b => exact ⟨_, rfl⟩
        | num r => exact ⟨_, rfl⟩
        | list xs =>
          cases xs with
          | nil => exact ⟨_, rfl⟩
          | cons e es =>
            cases e with
            | pstr s => exact ⟨_, rfl⟩
            | pnum r => exact ⟨_, rfl⟩
        | ndarray f => exact ⟨_, rfl⟩
        | pyNone => exact ⟨_, rfl⟩
      obtain ⟨s, hs⟩ := hok
      refine ⟨t2, ?_, List.mem_cons_of_mem _ hm2⟩
      simp [marshalAssigns, hs, ht2]

/-- Positional correspondence of successful marshaling: the assignment at
index `i` is the rendering of the argument at index `i`, with the variable
numbered from the starting offset. -/
theorem marshalAssigns_ok_get :
    ∀ (args : List OctArg) (k : Nat) (assigns : List String),
      marshalAssigns k args = Except.ok assigns →
      ∀ (i : Nat) (a : OctArg), args.get? i = some a →
      ∃ s, marshalArg ("arg" ++ toString (k + i)) a = Except.ok s ∧
        assigns.get? i = some s := by
  intro args
  induction args with
  | nil => intro k assigns h i a ha; simp at ha
  | cons hd tl ih =>
    intro k assigns h i a ha
    unfold marshalAssigns at h
    cases hm : marshalArg ("arg" ++ toString k) hd with
    | error t => rw [hm] at h; simp at h
    | ok s =>
      rw [hm] at h
      cases hr : marshalAssigns (k + 1) tl with
      | error t => rw [hr] at h; simp at h
      | ok ss =>
        rw [hr] at h
        simp at h
        cases i with
        | zero =>
          rw [List.get?_cons_zero] at ha
          injection ha with ha
          subst ha
          exact ⟨s, hm, by rw [← h, List.get?_cons_zero]⟩
        | succ j =>
          rw [List.get?_cons_succ] at ha
          obtain ⟨s2, hs2, hget⟩ := ih (k + 1) ss hr j a ha
          refine ⟨s2, ?_, ?_⟩
          · have hk : k + 1 + j = k + (j + 1) := by omega
            rw [← hk]
            exact hs2
          · rw [← h, List.get?_cons_succ]
            exact hget

/-! ### Claims -/

/-- C1 counterexample: with one transient command registered and the
container exec failing (exit code 1), `feval` raises and the transient
command buffer is NOT empty afterwards, refuting the claim that it is empty
immediately after every invocation, success or failure. -/
theorem C1_transient_counterexample :
    (DockerOctave.feval stCmds envExecFail reqPlain).state.commands ≠ [] := by
  decide

/-- C1 (amended): after a normal return of `feval` the transient buffer is
empty; after a raising `feval` the transient buffer is unchanged (it is
cleared only by a later normal return or an explicit `exit`); the
persistent command list is unchanged in all cases and each of its commands
appears among the lines of the next generated script. -/
theorem C1_transient_amended (st : OctaveState) (env : ExecEnv) (r : Request) :
    (DockerOctave.feval st env r).state.persistent_commands =
      st.persistent_commands ∧
    ((DockerOctave.feval st env r).result = Except.ok () →
      (DockerOctave.feval st env r).state.commands = []) ∧
    (∀ e, (DockerOctave.feval st env r).result = Except.error e →
      (DockerOctave.feval st env r).state.commands = st.commands) ∧
    (∀ (r2 : Request) (a2 : List String),
      marshalAssigns 0 r2.args = Except.ok a2 →
      ∀ c ∈ st.persistent_commands,
        c ∈ scriptLines (DockerOctave.feval st env r).state r2 a2) := by
  have hs := feval_result_state st env r
  have hp : (DockerOctave.feval st env r).state.persistent_commands =
      st.persistent_commands := by
    rw [hs]; split <;> rfl
  refine ⟨hp, ?_, ?_, ?_⟩
  · intro hok
    rw [hs, if_pos hok]
  · intro e herr
    rw [hs, if_neg (by simp [herr])]
  · intro r2 a2 _ c hc
    simp only [scriptLines, hp, List.mem_append]
    exact Or.inl (Or.inl (Or.inl hc))

/-- C1 witness: the persistent command registered before a failing
invocation still appears among the lines of the next generated script. -/
theorem C1_transient_amended_witness :
    "addpath(genpath(\x27basisREMY\x27));" ∈
      scriptLines (DockerOctave.feval stCmds envExecFail reqPlain).state
        reqNone ["arg0 = [];"] :=
  (C1_transient_amended stCmds envExecFail reqPlain).2.2.2 reqNone
    ["arg0 = [];"] (by decide) "addpath(genpath(\x27basisREMY\x27));" (by decide)

/-- C7: a request containing an argument of an unsupported type makes
`feval` raise the `TypeError` naming the type of an unsupported argument of
the request, with no script executed and the command buffers untouched (no
best-effort coercion). -/
theorem C7_unsupported_type (st : OctaveState) (env : ExecEnv) (r : Request)
    (t : String) (h : OctArg.unsupported t ∈ r.args) :
    ∃ t2, OctArg.unsupported t2 ∈ r.args ∧
      (DockerOctave.feval st env r).result =
        Except.error (FevalError.marshalingError t2) ∧
      (DockerOctave.feval st env r).executedScript = Option.none ∧
      (DockerOctave.feval st env r).state = st := by
  obtain ⟨t2, ht2, hm⟩ := marshalAssigns_err_of_unsupported r.args 0 t h
  have he := feval_marshal_err st env r t2 ht2
  exact ⟨t2, hm, by rw [he], by rw [he], by rw [he]⟩

/-- C7 witness: a dict-typed second argument raises the marshaling error
naming the dict type, with no script executed. -/
theorem C7_unsupported_type_witness :
    ∃ t2, OctArg.unsupported t2 ∈ reqDict.args ∧
      (DockerOctave.feval stCmds envExecOk reqDict).result =
        Except.error (FevalError.marshalingError t2) ∧
      (DockerOctave.feval stCmds envExecOk reqDict).executedScript =
        Option.none ∧
      (DockerOctave.feval stCmds envExecOk reqDict).state = stCmds :=
  C7_unsupported_type stCmds envExecOk reqDict "<class \x27dict\x27>" (by decide)

/-- C8: for a request whose arguments all marshal, the executed script text
is exactly the newline-join of: all persistent commands, then the argument
assignments, then the remaining transient commands, then one call statement
binding the result variables to the target function applied to the
positional argument variables, then one save statement writing the declared
result variable(s) to the fixed exchange-file path. -/
theorem C8_script_assembly (st : OctaveState) (env : ExecEnv) (r : Request)
    (assigns : List String)
    (h : marshalAssigns 0 r.args = Except.ok assigns) :
    (DockerOctave.feval st env r).executedScript =
      some (String.intercalate "\n"
        (st.persistent_commands ++ assigns ++ st.commands ++
          ["[" ++ String.intercalate ", " (resultVars r.nout) ++ "] = " ++
             r.func_path ++ "(" ++
             String.intercalate ", " (argVars r.args.length) ++ ");",
           "save(\x27-v7\x27, \x27" ++ result_file_rel ++ "\x27, " ++
             String.intercalate ", "
               ((storeVars r).map (fun v => "\x27" ++ v ++ "\x27")) ++
             ");"])) := by
  rw [feval_script st env r assigns h]
  rfl

/-- C8 witness: the fully assembled script for a one-Absent-argument
request over a state with one persistent and one transient command. -/
theorem C8_script_assembly_witness :
    (DockerOctave.feval stCmds envExecOk reqNone).executedScript =
      some (String.intercalate "\n"
        (stCmds.persistent_commands ++ ["arg0 = [];"] ++ stCmds.commands ++
          ["[" ++ String.intercalate ", " (resultVars reqNone.nout) ++ "] = " ++
             reqNone.func_path ++ "(" ++
             String.intercalate ", " (argVars reqNone.args.length) ++ ");",
           "save(\x27-v7\x27, \x27" ++ result_file_rel ++ "\x27, " ++
             String.intercalate ", "
               ((storeVars reqNone).map (fun v => "\x27" ++ v ++ "\x27")) ++
             ");"])) :=
  C8_script_assembly stCmds envExecOk reqNone ["arg0 = [];"] (by decide)

/-- C9: an Absent (`None`) argument at position `i` is assigned the
empty-array literal: the assignment at index `i` is the line
`argi = [];`, and that line is among the lines of the executed script — a
property of the script text alone. -/
theorem C9_none_empty_array (st : OctaveState) (env : ExecEnv) (r : Request)
    (assigns : List String) (i : Nat)
    (h : marshalAssigns 0 r.args = Except.ok assigns)
    (hi : r.args.get? i = some OctArg.pyNone) :
    assigns.get? i = some ("arg" ++ toString i ++ " = [];") ∧
    ∃ lines, (DockerOctave.feval st env r).executedScript =
        some (String.intercalate "\n" lines) ∧
      ("arg" ++ toString i ++ " = [];") ∈ lines := by
  obtain ⟨s, hs, hget⟩ := marshalAssigns_ok_get r.args 0 assigns h i OctArg.pyNone hi
  have hmar : marshalArg ("arg" ++ toString (0 + i)) OctArg.pyNone =
      Except.ok ("arg" ++ toString (0 + i) ++ " = [];") := rfl
  rw [hmar] at hs
  injection hs with hs
  have hz : (0 : Nat) + i = i := Nat.zero_add i
  rw [hz] at hs
  subst hs
  refine ⟨hget, scriptLines st r assigns, feval_script st env r assigns h, ?_⟩
  have hmem : ("arg" ++ toString i ++ " = [];") ∈ assigns := List.get?_mem hget
  simp only [scriptLines, List.mem_append]
  exact Or.inl (Or.inl (Or.inr hmem))

/-- C9 witness: for the one-Absent-argument request, the line
`arg0 = [];` is the first assignment and appears in the script lines. -/
theorem C9_none_empty_array_witness :
    (["arg0 = [];"] : List String).get? 0 =
        some ("arg" ++ toString 0 ++ " = [];") ∧
    ∃ lines, (DockerOctave.feval stCmds envExecOk reqNone).executedScript =
        some (String.intercalate "\n" lines) ∧
      ("arg" ++ toString 0 ++ " = [];") ∈ lines :=
  C9_none_empty_array stCmds envExecOk reqNone ["arg0 = [];"] 0
    (by decide) (by decide)

/-- C10: the text-list branch inspects only the first element: an empty
Python list lowers exactly like Absent, to the empty numeric-array literal
(and in particular not to the empty cell-array literal), while a list whose
first element is text lowers entirely to a quoted-string cell array,
every element quoted, whatever the remaining element types. -/
theorem C10_list_first_element (var s : String) (rest : List PyElem) :
    marshalArg var (OctArg.list []) = marshalArg var OctArg.pyNone ∧
    marshalArg var (OctArg.list []) = Except.ok (var ++ " = [];") ∧
    marshalArg "arg0" (OctArg.list []) ≠ Except.ok "arg0 = \x7b\x7d;" ∧
    marshalArg var (OctArg.list (PyElem.pstr s :: rest)) =
      Except.ok (var ++ " = \x7b" ++
        String.intercalate ", "
          ((PyElem.pstr s :: rest).map (fun e => "\x27" ++ e.pyStr ++ "\x27")) ++
        "\x7d;") := by
  have hempty : marshalArg var (OctArg.list []) = Except.ok (var ++ " = [];") := by
    have h0 : marshalArg var (OctArg.list []) =
        Except.ok (var ++ " = [" ++
          String.intercalate ", " (List.map PyElem.pyStr []) ++ "];") := rfl
    rw [h0]
    have h1 : String.intercalate ", " (List.map PyElem.pyStr []) = "" := rfl
    rw [h1, String.append_empty, String.append_assoc]
    rfl
  refine ⟨?_, hempty, by decide, rfl⟩
  rw [hempty]
  rfl

/-- C2 counterexample: the Docker probe succeeds, Docker construction
throws, and the local backend is fully available, yet
`initialize_octave(prefer_docker=true)` propagates the construction error
instead of attempting the local backend — refuting the claimed
construction-failure fallback. -/
theorem C2_ctor_fallback_counterexample :
    (OctaveManager.initialize_octave mgr0 ⟨true, true, false, true⟩
        true Option.none).1 =
      Except.error (InitError.ctorFailed BackendKind.docker) ∧
    (OctaveManager.initialize_octave mgr0 ⟨true, true, false, true⟩
        true Option.none).1 ≠ Except.ok BackendKind.localOctave := by
  decide

/-- C2 (amended): the other backend is attempted only when the preferred
probe fails; when the preferred probe succeeds but the preferred
construction throws, `initialize_octave` raises that construction error,
having touched nothing but the preferred availability flag — the other
backend is not probed, let alone constructed. -/
theorem C2_ctor_no_fallback_amended (st : ManagerState) (env : ManagerEnv) :
    (env.docker_probe = true → env.docker_ctor_ok = false →
      OctaveManager.initialize_octave st env true Option.none =
        (Except.error (InitError.ctorFailed BackendKind.docker),
         { st with docker_available := true })) ∧
    (env.local_probe = true → env.local_ctor_ok = false →
      OctaveManager.initialize_octave st env false Option.none =
        (Except.error (InitError.ctorFailed BackendKind.localOctave),
         { st with local_octave_available := true })) := by
  constructor
  · intro hp hc
    simp [OctaveManager.initialize_octave,
      OctaveManager.check_docker_availability,
      OctaveManager._initialize_docker, hp, hc]
  · intro hp hc
    simp [OctaveManager.initialize_octave,
      OctaveManager.check_local_octave_availability,
      OctaveManager._initialize_local, hp, hc]

/-- C2 witness: at the counterexample environment, the amended statement
instantiates to the propagated Docker construction error. -/
theorem C2_ctor_no_fallback_amended_witness :
    OctaveManager.initialize_octave mgr0 ⟨true, true, false, true⟩
        true Option.none =
      (Except.error (InitError.ctorFailed BackendKind.docker),
       { mgr0 with docker_available := true }) :=
  (C2_ctor_no_fallback_amended mgr0 ⟨true, true, false, true⟩).1 rfl rfl

/-- C3 counterexample: a successful Docker probe mutates the manager — the
`docker_available` flag differs afterwards — refuting the claim that every
field is unchanged by a probe call. -/
theorem C3_probe_purity_counterexample :
    (OctaveManager.check_docker_availability mgr0
        ⟨true, true, true, true⟩).2 ≠ mgr0 := by
  decide

/-- C3 (amended): the probes never throw — in the embedding they are total
boolean functions, every internal failure collapsing to `false` — and each
mutates exactly one field: the corresponding availability flag is set to
`true` on a successful probe and left unchanged on a failed one; no other
field ever changes. -/
theorem C3_probe_amended (st : ManagerState) (env : ManagerEnv) :
    OctaveManager.check_docker_availability st env =
      (env.docker_probe,
       { st with docker_available := st.docker_available || env.docker_probe }) ∧
    OctaveManager.check_local_octave_availability st env =
      (env.local_probe,
       { st with local_octave_available :=
           st.local_octave_available || env.local_probe }) := by
  constructor
  · cases h : env.docker_probe <;>
      simp [OctaveManager.check_docker_availability, h]
  · cases h : env.local_probe <;>
      simp [OctaveManager.check_local_octave_availability, h]

/-- C4 counterexample: a first `initialize_octave` with only local Octave
available sets `runtime_type` to `local`; a second call on the same
manager, with Docker now available, silently changes it to `docker` —
refuting set-at-most-once. -/
theorem C4_runtime_type_counterexample :
    (OctaveManager.initialize_octave mgr0 ⟨false, true, true, true⟩
        true Option.none).2.runtime_type = some "local" ∧
    (OctaveManager.initialize_octave
        (OctaveManager.initialize_octave mgr0 ⟨false, true, true, true⟩
          true Option.none).2
        ⟨true, true, true, true⟩ true Option.none).2.runtime_type =
      some "docker" := by
  decide

/-- C4 (amended): `runtime_type` is (re)assigned by every successful
`initialize_octave`, to the kind of the backend just constructed; a call
that raises leaves it unchanged. A later successful call with different
probe outcomes can therefore change it. -/
theorem C4_runtime_type_amended (st : ManagerState) (env : ManagerEnv)
    (prefer : Bool) (v : Option Bool) :
    ((OctaveManager.initialize_octave st env prefer v).1 =
        Except.ok BackendKind.docker →
      (OctaveManager.initialize_octave st env prefer v).2.runtime_type =
        some "docker") ∧
    ((OctaveManager.initialize_octave st env prefer v).1 =
        Except.ok BackendKind.localOctave →
      (OctaveManager.initialize_octave st env prefer v).2.runtime_type =
        some "local") ∧
    (∀ e, (OctaveManager.initialize_octave st env prefer v).1 =
        Except.error e →
      (OctaveManager.initialize_octave st env prefer v).2.runtime_type =
        st.runtime_type) := by
  cases v <;> cases prefer <;>
    cases hd : env.docker_probe <;> cases hl : env.local_probe <;>
    cases hdc : env.docker_ctor_ok <;> cases hlc : env.local_ctor_ok <;>
    simp [OctaveManager.initialize_octave,
      OctaveManager.check_docker_availability,
      OctaveManager.check_local_octave_availability,
      OctaveManager._initialize_docker, OctaveManager._initialize_local,
      OctaveManager._get_installation_instructions, hd, hl, hdc, hlc]

/-- C4 witness: a successful Docker initialization yields
`runtime_type = docker`. -/
theorem C4_runtime_type_amended_witness :
    (OctaveManager.initialize_octave mgr0 ⟨true, true, true, true⟩
        true Option.none).2.runtime_type = some "docker" :=
  (C4_runtime_type_amended mgr0 ⟨true, true, true, true⟩ true Option.none).1
    (by decide)

/-- C5: when both probes fail, `initialize_octave` raises — for either
preference and any verbose override — carrying the full instruction
message, whose lines include both remediation sections: the Docker
installation instructions and the local-Octave installation
instructions. -/
theorem C5_both_unavailable (st : ManagerState) (env : ManagerEnv)
    (prefer : Bool) (v : Option Bool)
    (hd : env.docker_probe = false) (hl : env.local_probe = false) :
    (OctaveManager.initialize_octave st env prefer v).1 =
      Except.error (InitError.notAvailable
        (String.intercalate "\n"
          (OctaveManager.installationLines false false))) ∧
    "To install Docker:" ∈ OctaveManager.installationLines false false ∧
    "To install Octave:" ∈ OctaveManager.installationLines false false := by
  refine ⟨?_, by decide, by decide⟩
  cases v <;> cases prefer <;>
    simp [OctaveManager.initialize_octave,
      OctaveManager.check_docker_availability,
      OctaveManager.check_local_octave_availability,
      OctaveManager._get_installation_instructions, hd, hl]

/-- C5 witness: the fresh manager in an environment with neither backend
raises the message holding both remediation sections. -/
theorem C5_both_unavailable_witness :
    (OctaveManager.initialize_octave mgr0 ⟨false, false, true, true⟩
        true Option.none).1 =
      Except.error (InitError.notAvailable
        (String.intercalate "\n"
          (OctaveManager.installationLines false false))) ∧
    "To install Docker:" ∈ OctaveManager.installationLines false false ∧
    "To install Octave:" ∈ OctaveManager.installationLines false false :=
  C5_both_unavailable mgr0 ⟨false, false, true, true⟩ true Option.none rfl rfl

/-- C6 counterexample: the Docker probe fails, the local probe succeeds,
but the local constructor throws; `initialize_octave(prefer_docker=true)`
raises instead of yielding a local session — refuting the claim as
stated, which assumes only the probe outcomes. -/
theorem C6_local_fallback_counterexample :
    (OctaveManager.initialize_octave mgr0 ⟨false, true, true, false⟩
        true Option.none).1 =
      Except.error (InitError.ctorFailed BackendKind.localOctave) ∧
    (OctaveManager.initialize_octave mgr0 ⟨false, true, true, false⟩
        true Option.none).1 ≠ Except.ok BackendKind.localOctave := by
  decide

/-- C6 (amended): if the Docker probe fails, the local probe succeeds, and
local backend construction succeeds, then
`initialize_octave(prefer_docker=true)` returns normally with the local
backend and `runtime_type = local`. -/
theorem C6_local_fallback_amended (st : ManagerState) (env : ManagerEnv)
    (v : Option Bool) (hd : env.docker_probe = false)
    (hl : env.local_probe = true) (hc : env.local_ctor_ok = true) :
    (OctaveManager.initialize_octave st env true v).1 =
      Except.ok BackendKind.localOctave ∧
    (OctaveManager.initialize_octave st env true v).2.runtime_type =
      some "local" := by
  cases v <;>
    simp [OctaveManager.initialize_octave,
      OctaveManager.check_docker_availability,
      OctaveManager.check_local_octave_availability,
      OctaveManager._initialize_local, hd, hl, hc]

/-- C6 witness: with Docker absent and local Octave present and
constructible, preferring Docker still yields the local backend. -/
theorem C6_local_fallback_amended_witness :
    (OctaveManager.initialize_octave mgr0 ⟨false, true, true, true⟩
        true Option.none).1 =
      Except.ok BackendKind.localOctave ∧
    (OctaveManager.initialize_octave mgr0 ⟨false, true, true, true⟩
        true Option.none).2.runtime_type = some "local" :=
  C6_local_fallback_amended mgr0 ⟨false, true, true, true⟩ Option.none
    rfl rfl rfl

end BasisREMY
